import Mathlib

/-!
Verification of the py-stellar-mcp custody and trading subsystem.

Shallow embedding of the Python sources:
  key_manager.py     (KeyManager: store / get_keypair / export_secret /
                      import_keypair / has_account over a Python dict)
  stellar_tools.py   (_dict_to_asset, create_account, import_keypair tool,
                      submit_transaction, remove_trustline, cancel_order)

External collaborators (the stellar_sdk keypair derivation, the XDR codec
and the Horizon HTTP client) are passed in as explicit function parameters,
mirroring how the Python code receives the `horizon` handle; they are pure
in the SDK (derivation is deterministic) so functions model them faithfully.
Python exceptions are modelled by `Except PyExc`; a tool-level try/except
block becomes a match that converts the exception into the error dict the
Python code returns.  A Python dict is modelled as an association list with
first-occurrence lookup and in-place update, which matches dict semantics
exactly on states reachable by the program (keys are unique).
-/

namespace StellarMCP

/-- Python exceptions that the modelled code paths can raise. -/
inductive PyExc where
  | valueError (msg : String)
  | notFoundError (resource : String)
  | keyError (key : String)
  | badSeed (seed : String)
  | requestError (msg : String)
deriving DecidableEq

/-- `str(e)` rendering of an exception at the tool boundary.  The exact text
of SDK/Horizon exception messages is external; only the value-error texts
produced by key_manager.py itself are meaningful to the claims. -/
def pyStr : PyExc → String
  | .valueError m => m
  | .notFoundError r => "Resource Missing: " ++ r
  | .keyError k => "KeyError: " ++ k
  | .badSeed s => "Invalid Ed25519 Secret Seed: " ++ s
  | .requestError m => m

/-- A stellar_sdk Keypair: public key plus the secret seed it came from. -/
structure Keypair where
  public_key : String
  secret : String
deriving DecidableEq

/-- `Keypair.from_secret` of the SDK: a pure, deterministic partial function;
`none` models the Ed25519SecretSeedInvalidError raised on a malformed seed. -/
def FromSecret : Type := String → Option Keypair

/-! ### Python dict, modelled as an association list -/

/-- `d.get(k)` / `d[k]`: first binding of the key wins. -/
def dictGet : List (String × String) → String → Option String
  | [], _ => none
  | (k', v) :: rest, k => if k' = k then some v else dictGet rest k

/-- `d[k] = v`: replace the binding in place, or append a new one. -/
def dictSet : List (String × String) → String → String → List (String × String)
  | [], k, v => [(k, v)]
  | (k', v') :: rest, k, v =>
      if k' = k then (k, v) :: rest else (k', v') :: dictSet rest k v

/-- The keys of the dict. -/
def dictKeys (d : List (String × String)) : List String := d.map Prod.fst

/-- Number of bindings a key has (1 on every reachable dict state). -/
def countKey (d : List (String × String)) (k : String) : Nat :=
  (d.filter (fun p => decide (p.1 = k))).length

theorem dictGet_dictSet_self (d : List (String × String)) (k v : String) :
    dictGet (dictSet d k v) k = some v := by
  induction d with
  | nil => simp [dictSet, dictGet]
  | cons hd tl ih =>
      obtain ⟨k', v'⟩ := hd
      by_cases h : k' = k
      · simp [dictSet, h, dictGet]
      · simp [dictSet, h, dictGet, ih]

theorem dictSet_eq_of_get (d : List (String × String)) (k v : String)
    (h : dictGet d k = some v) : dictSet d k v = d := by
  induction d with
  | nil => simp [dictGet] at h
  | cons hd tl ih =>
      obtain ⟨k', v'⟩ := hd
      by_cases hk : k' = k
      · subst hk
        simp [dictGet] at h
        simp [dictSet, h]
      · simp [dictGet, hk] at h
        simp [dictSet, hk, ih h]

theorem countKey_cons_ne (p : String × String) (tl : List (String × String))
    (k : String) (h : ¬ p.1 = k) : countKey (p :: tl) k = countKey tl k := by
  simp [countKey, List.filter_cons, h]

theorem countKey_cons_eq (p : String × String) (tl : List (String × String))
    (k : String) (h : p.1 = k) : countKey (p :: tl) k = countKey tl k + 1 := by
  simp [countKey, List.filter_cons, h]

theorem countKey_eq_zero (d : List (String × String)) (k : String)
    (h : k ∉ dictKeys d) : countKey d k = 0 := by
  induction d with
  | nil => rfl
  | cons hd tl ih =>
      have hmem : k ∉ (hd.1 :: dictKeys tl) := h
      rw [List.mem_cons, not_or] at hmem
      rw [countKey_cons_ne hd tl k (fun hc => hmem.1 hc.symm)]
      exact ih hmem.2

theorem countKey_dictSet (d : List (String × String)) (k v : String)
    (hnd : (dictKeys d).Nodup) : countKey (dictSet d k v) k = 1 := by
  induction d with
  | nil =>
      rw [show dictSet [] k v = [(k, v)] from rfl, countKey_cons_eq _ _ _ rfl]
      rfl
  | cons hd tl ih =>
      obtain ⟨k', v'⟩ := hd
      have hnd' : k' ∉ dictKeys tl ∧ (dictKeys tl).Nodup := by
        rw [show dictKeys ((k', v') :: tl) = k' :: dictKeys tl from rfl,
          List.nodup_cons] at hnd
        exact hnd
      by_cases h : k' = k
      · have hset : dictSet ((k', v') :: tl) k v = (k, v) :: tl := by
          simp [dictSet, h]
        rw [hset, countKey_cons_eq _ _ _ rfl, countKey_eq_zero tl k (h ▸ hnd'.1)]
      · have hset : dictSet ((k', v') :: tl) k v = (k', v') :: dictSet tl k v := by
          simp [dictSet, h]
        rw [hset, countKey_cons_ne _ _ _ h]
        exact ih hnd'.2

/-! ### key_manager.py -/

/-- key_manager.py line 40: message of the ValueError raised by get_keypair. -/
def getNotFoundMsg (account_id : String) : String :=
  "Account " ++ account_id ++ " not found in key storage. " ++
    "Use create_account() or import_keypair() first."

/-- key_manager.py line 70: message of the ValueError raised by export_secret. -/
def exportNotFoundMsg (account_id : String) : String :=
  "Account " ++ account_id ++ " not found in storage"

/-- KeyManager: the in-memory keypair store (a Python dict). -/
structure KeyManager where
  keypair_store : List (String × String)
deriving DecidableEq

/-- key_manager.py lines 15-23: unconditional upsert. -/
def KeyManager.store (km : KeyManager) (account_id secret_key : String) :
    KeyManager :=
  ⟨dictSet km.keypair_store account_id secret_key⟩

/-- key_manager.py lines 25-44.  `if not secret` is Python truthiness: both a
missing key and a stored empty string take the not-found branch.  On the
success path the stored seed is passed to `Keypair.from_secret`, whose
failure (malformed seed) propagates out of get_keypair. -/
def KeyManager.get_keypair (fs : FromSecret) (km : KeyManager)
    (account_id : String) : Except PyExc Keypair :=
  match dictGet km.keypair_store account_id with
  | none => .error (.valueError (getNotFoundMsg account_id))
  | some secret =>
      if secret = "" then .error (.valueError (getNotFoundMsg account_id))
      else
        match fs secret with
        | none => .error (.badSeed secret)
        | some kp => .ok kp

/-- key_manager.py lines 55-71: same `if not secret` truthiness check,
then returns the raw stored secret without any derivation. -/
def KeyManager.export_secret (km : KeyManager) (account_id : String) :
    Except PyExc String :=
  match dictGet km.keypair_store account_id with
  | none => .error (.valueError (exportNotFoundMsg account_id))
  | some secret =>
      if secret = "" then .error (.valueError (exportNotFoundMsg account_id))
      else .ok secret

/-- key_manager.py lines 73-86: derive the public key (raising on a malformed
seed, before any write), then store the pair and return the account id. -/
def KeyManager.import_keypair (fs : FromSecret) (km : KeyManager)
    (secret_key : String) : Except PyExc (String × KeyManager) :=
  match fs secret_key with
  | none => .error (.badSeed secret_key)
  | some keypair => .ok (keypair.public_key, km.store keypair.public_key secret_key)

/-- key_manager.py lines 88-98: plain dict key membership. -/
def KeyManager.has_account (km : KeyManager) (account_id : String) : Bool :=
  (dictGet km.keypair_store account_id).isSome

/-! ### stellar_tools.py: asset resolution -/

/-- A stellar_sdk Asset value: the native unit or a (code, issuer) pair. -/
inductive Asset where
  | native
  | alphanum (code issuer : String)
deriving DecidableEq

/-- The asset dict accepted by the tools; each field may be absent. -/
structure AssetDict where
  type? : Option String
  code? : Option String
  issuer? : Option String
deriving DecidableEq

/-- stellar_tools.py lines 23-35.  `asset_dict.get("type") == "native"` maps
to the native singleton; any other type tag takes the issued branch, where
the bare subscripts `asset_dict["code"]` and then `asset_dict["issuer"]`
raise KeyError when the field is missing.  The function touches neither the
vault nor the network: its only input is the dict itself. -/
def dict_to_asset (d : AssetDict) : Except PyExc Asset :=
  if d.type? = some "native" then .ok .native
  else
    match d.code? with
    | none => .error (.keyError "code")
    | some code =>
        match d.issuer? with
        | none => .error (.keyError "issuer")
        | some issuer => .ok (.alphanum code issuer)

/-! ### stellar_tools.py: transactions and the Horizon boundary -/

/-- The operations the modelled tools append to a transaction. -/
inductive Operation where
  | manageSellOffer (selling buying : Asset) (amount price : String)
      (offer_id : Int)
  | changeTrust (asset : Asset) (limit : Option String)
deriving DecidableEq

/-- A built transaction: source account, next sequence number, the appended
operations, and the public keys whose keypairs signed it. -/
structure Transaction where
  source : String
  seq : Int
  ops : List Operation
  sigs : List String
deriving DecidableEq

/-- `tx.sign(keypair)` appends a signature. -/
def Transaction.signWith (tx : Transaction) (kp : Keypair) : Transaction :=
  ⟨tx.source, tx.seq, tx.ops, tx.sigs ++ [kp.public_key]⟩

/-- An offer record as returned by the Horizon offer-by-id lookup:
the recorded selling and buying asset dicts and the price string. -/
structure OfferRecord where
  selling : AssetDict
  buying : AssetDict
  price : String
deriving DecidableEq

/-- `horizon.load_account`: account id plus current sequence number. -/
structure LoadedAccount where
  account_id : String
  sequence : Int
deriving DecidableEq

/-- `horizon.submit_transaction`: either the parsed response dict or an
exception raised by the HTTP client / Horizon error mapping.  In both cases
the transaction has been sent to the network. -/
inductive SubmitOutcome where
  | response (successful : Bool) (hash : Option String) (ledger : Option Nat)
  | raise (e : PyExc)
deriving DecidableEq

/-- The Horizon client surface the modelled tools use.  `lookupOffer`
returning `none` models the NotFoundError raised by the offer-by-id call;
likewise `loadAccount`. -/
structure HorizonEnv where
  lookupOffer : String → Option OfferRecord
  loadAccount : String → Option LoadedAccount
  submit : Transaction → SubmitOutcome

/-- Observable effects of one tool call: the transactions built and the
transactions handed to `horizon.submit_transaction`. -/
structure CallTrace where
  built : List Transaction
  submitted : List Transaction
deriving DecidableEq

/-- Result dict of the submit-shaped tools: on the success path the dict
with success/hash/ledger/message fields, on the except path the dict
with success False and the stringified exception. -/
inductive TxSubmitResult where
  | ok (success : Bool) (hash : Option String) (ledger : Option Nat)
      (message : String)
  | err (error : String)
deriving DecidableEq

/-- Result dict of the account-id-shaped tools. -/
inductive AccountIdResult where
  | ok (account_id : String) (message : String)
  | err (error : String)
deriving DecidableEq

/-- stellar_tools.py lines 42-63.  `Keypair.random()` is the only source of
nondeterminism; the fresh keypair is passed in as an argument.  Nothing in
the try body can raise, so the tool always returns the success dict and the
vault extended with the new pair. -/
def create_account (kp : Keypair) (km : KeyManager) :
    AccountIdResult × KeyManager :=
  (.ok kp.public_key
      ("Account created (unfunded). Use fund_account() to activate on " ++
        "testnet."),
    km.store kp.public_key kp.secret)

/-- stellar_tools.py lines 214-232: the tool wrapper around
KeyManager.import_keypair.  The exception raised by a malformed seed is
raised before any write, so the except branch returns the vault unchanged. -/
def importKeypairTool (fs : FromSecret) (secret_key : String)
    (km : KeyManager) : AccountIdResult × KeyManager :=
  match KeyManager.import_keypair fs km secret_key with
  | .error e => (.err (pyStr e), km)
  | .ok (account_id, km') =>
      (.ok account_id "Keypair imported successfully", km')

/-- stellar_tools.py lines 435-459.  The XDR codec is the external
`TransactionEnvelope.from_xdr`, passed in as a fallible parser. -/
def submit_transaction (fromXdr : String → Except PyExc Transaction)
    (env : HorizonEnv) (signed_xdr : String) : TxSubmitResult :=
  match fromXdr signed_xdr with
  | .error e => .err (pyStr e)
  | .ok tx =>
      match env.submit tx with
      | .raise e => .err (pyStr e)
      | .response ok h l => .ok ok h l "Transaction submitted successfully"

/-- stellar_tools.py lines 292-340.  Steps in source order: keypair lookup,
asset resolution, account load, then build a change-trust operation with
limit "0" on the resolved asset, sign it and submit it.  There is no check
anywhere on this path that the asset is not native. -/
def remove_trustline (env : HorizonEnv) (fs : FromSecret) (km : KeyManager)
    (account_id : String) (asset : AssetDict) : TxSubmitResult × CallTrace :=
  match KeyManager.get_keypair fs km account_id with
  | .error e => (.err (pyStr e), ⟨[], []⟩)
  | .ok kp =>
      match dict_to_asset asset with
      | .error e => (.err (pyStr e), ⟨[], []⟩)
      | .ok asset_obj =>
          match env.loadAccount account_id with
          | none => (.err (pyStr (.notFoundError account_id)), ⟨[], []⟩)
          | some account =>
              let tx : Transaction :=
                Transaction.signWith
                  ⟨account.account_id, account.sequence + 1,
                    [.changeTrust asset_obj (some "0")], []⟩ kp
              match env.submit tx with
              | .raise e => (.err (pyStr e), ⟨[tx], [tx]⟩)
              | .response ok h l =>
                  (.ok ok h l
                      ("Trustline removed for " ++ (asset.code?.getD "asset")),
                    ⟨[tx], [tx]⟩)

/-- Digit accumulator for parsePyInt. -/
def parseDigitsAux : List Char → Nat → Option Nat
  | [], acc => some acc
  | c :: cs, acc =>
      if c.isDigit then parseDigitsAux cs (acc * 10 + (c.toNat - 48))
      else none

/-- The Python builtin `int(...)` on a string (sign and digits; `none`
models the ValueError raised on a non-numeric literal). -/
def parsePyInt (s : String) : Option Int :=
  match s.data with
  | [] => none
  | '-' :: cs =>
      match cs with
      | [] => none
      | _ :: _ => (parseDigitsAux cs 0).map (fun n => -(n : Int))
  | cs => (parseDigitsAux cs 0).map (fun n => (n : Int))

/-- stellar_tools.py lines 462-518.  Steps in source order: keypair lookup,
offer-by-id lookup (NotFoundError when absent), resolution of the recorded
selling and buying asset dicts, account load, then `int(offer_id)` and a
manage-sell-offer operation with amount "0", the looked-up price and the
parsed offer id; the signed transaction is submitted.  Any exception on the
way yields the error dict with nothing built or submitted. -/
def cancel_order (env : HorizonEnv) (fs : FromSecret) (km : KeyManager)
    (account_id offer_id : String) : TxSubmitResult × CallTrace :=
  match KeyManager.get_keypair fs km account_id with
  | .error e => (.err (pyStr e), ⟨[], []⟩)
  | .ok kp =>
      match env.lookupOffer offer_id with
      | none => (.err (pyStr (.notFoundError offer_id)), ⟨[], []⟩)
      | some offer =>
          match dict_to_asset offer.selling with
          | .error e => (.err (pyStr e), ⟨[], []⟩)
          | .ok selling =>
              match dict_to_asset offer.buying with
              | .error e => (.err (pyStr e), ⟨[], []⟩)
              | .ok buying =>
                  match env.loadAccount account_id with
                  | none =>
                      (.err (pyStr (.notFoundError account_id)), ⟨[], []⟩)
                  | some account =>
                      match parsePyInt offer_id with
                      | none =>
                          (.err (pyStr (.valueError
                              ("invalid literal for int() with base 10: " ++
                                offer_id))), ⟨[], []⟩)
                      | some oid =>
                          let tx : Transaction :=
                            Transaction.signWith
                              ⟨account.account_id, account.sequence + 1,
                                [.manageSellOffer selling buying "0"
                                  offer.price oid], []⟩ kp
                          match env.submit tx with
                          | .raise e => (.err (pyStr e), ⟨[tx], [tx]⟩)
                          | .response ok h l =>
                              (.ok ok h l
                                  ("Order " ++ offer_id ++
                                    " cancelled successfully"),
                                ⟨[tx], [tx]⟩)

/-! ### Market Executor -/

/-- Outcome of a market-order book walk: the derived execution price, the
amount filled, and whether the book was exhausted before the requested
amount was covered. -/
structure MarketFill where
  price : Rat
  filled : Rat
  exhausted : Bool
deriving DecidableEq

/-- Modelled from the spec: the Market Executor lives in
stellar_tools_v2.py, which is imported by server_v2.py but absent from the
sources.  Spec section 4.4: for a market buy of amount A, walk the ask side
nearest-price-first accumulating available depth until A is covered or the
book is exhausted; the derived price is the worst (highest) price touched;
a partial fill on insufficient depth is accepted, not an error; a book with
zero depth on the side fails with InsufficientLiquidity (`none`).  Levels
are (price, amount) pairs in the order Horizon returns them
(nearest price first). -/
def marketBuyWalk : List (Rat × Rat) → Rat → Option MarketFill
  | [], _ => none
  | (p, a) :: rest, amount =>
      if amount ≤ a then some ⟨p, amount, false⟩
      else
        match marketBuyWalk rest (amount - a) with
        | some f => some ⟨max p f.price, a + f.filled, f.exhausted⟩
        | none => some ⟨p, a, true⟩

/-! ### Concrete instances used by witnesses and counterexamples -/

/-- A derivation function with one well-formed seed. -/
def fsTest : FromSecret := fun s =>
  if s = "SVALID" then some ⟨"GVALID", "SVALID"⟩ else none

/-- A derivation function that fails on every seed. -/
def fsNone : FromSecret := fun _ => none

/-- A vault holding one account with a well-formed seed. -/
def kmW : KeyManager := ⟨[("GA", "SVALID")]⟩

/-- A vault where "GA" was stored with an empty credential and "GB" with a
malformed one. -/
def kmC2 : KeyManager := ((KeyManager.mk []).store "GA" "").store "GB" "bad"

/-- A vault where "GB" was stored with a malformed credential. -/
def kmC5 : KeyManager := (KeyManager.mk []).store "GB" "bad"

/-- A recorded offer: selling issued USDC, buying native, price 0.5. -/
def recW : OfferRecord :=
  ⟨⟨none, some "USDC", some "GISSUER"⟩, ⟨some "native", none, none⟩, "0.5"⟩

/-- A Horizon environment knowing offer "42" and account "GA", whose submit
endpoint accepts every transaction. -/
def envW : HorizonEnv :=
  ⟨fun i => if i = "42" then some recW else none,
   fun a => if a = "GA" then some ⟨"GA", 7⟩ else none,
   fun _ => .response true (some "h1") (some 5)⟩

/-- The native asset reference as a dict. -/
def assetNativeDict : AssetDict := ⟨some "native", none, none⟩

/-! ### Claim theorems -/

/-- C9: after store(identity, "") with an empty-string credential,
has_account(identity) returns True while get_keypair(identity) and
export_secret(identity) both fail with the not-found ValueError, because the
retrieval path tests Python truthiness of the stored credential rather than
membership. -/
theorem store_empty_membership_vs_retrieval (fs : FromSecret)
    (km : KeyManager) (account_id : String) :
    (km.store account_id "").has_account account_id = true ∧
    (km.store account_id "").get_keypair fs account_id =
      .error (.valueError (getNotFoundMsg account_id)) ∧
    (km.store account_id "").export_secret account_id =
      .error (.valueError (exportNotFoundMsg account_id)) := by
  have hget := dictGet_dictSet_self km.keypair_store account_id ""
  refine ⟨?_, ?_, ?_⟩
  · simp [KeyManager.has_account, KeyManager.store, hget]
  · simp [KeyManager.get_keypair, KeyManager.store, hget]
  · simp [KeyManager.export_secret, KeyManager.store, hget]

/-- C7: for every asset dict whose type tag is not "native" and whose code
or issuer field is missing, the Asset Resolver fails (a KeyError from the
bare subscript, the InvalidAsset of the spec taxonomy).  The function is
pure by construction: its only argument is the dict. -/
theorem dict_to_asset_missing_field_fails (d : AssetDict)
    (htype : d.type? ≠ some "native")
    (hmiss : d.code? = none ∨ d.issuer? = none) :
    ∃ k, dict_to_asset d = .error (.keyError k) := by
  rcases hmiss with h | h
  · exact ⟨"code", by simp [dict_to_asset, htype, h]⟩
  · cases hc : d.code? with
    | none => exact ⟨"code", by simp [dict_to_asset, htype, hc]⟩
    | some c => exact ⟨"issuer", by simp [dict_to_asset, htype, hc, h]⟩

/-- C7 witness: resolving an issued asset with a missing issuer fails. -/
theorem dict_to_asset_missing_field_fails_witness :
    ∃ k, dict_to_asset ⟨some "issued", some "USDC", none⟩ =
      .error (.keyError k) :=
  dict_to_asset_missing_field_fails ⟨some "issued", some "USDC", none⟩
    (by decide) (Or.inr rfl)

/-- C10: import is atomic on failure: when derivation fails on a malformed
credential, import_keypair raises before any write, and the tool wrapper
returns the error dict with the vault mapping exactly as it was. -/
theorem import_keypair_atomic_on_failure (fs : FromSecret) (km : KeyManager)
    (secret_key : String) (h : fs secret_key = none) :
    KeyManager.import_keypair fs km secret_key =
      .error (.badSeed secret_key) ∧
    importKeypairTool fs secret_key km =
      (.err (pyStr (.badSeed secret_key)), km) := by
  constructor
  · simp [KeyManager.import_keypair, h]
  · simp [importKeypairTool, KeyManager.import_keypair, h]

/-- C10 witness: a failing import on a populated vault leaves it unchanged. -/
theorem import_keypair_atomic_on_failure_witness :
    KeyManager.import_keypair fsNone (KeyManager.mk [("GA", "SVALID")]) "bad" =
      .error (.badSeed "bad") ∧
    importKeypairTool fsNone "bad" (KeyManager.mk [("GA", "SVALID")]) =
      (.err (pyStr (.badSeed "bad")), KeyManager.mk [("GA", "SVALID")]) :=
  import_keypair_atomic_on_failure fsNone ⟨[("GA", "SVALID")]⟩ "bad" rfl

/-- C6: import is idempotent: importing the same well-formed credential
twice returns the same derived identity both times (derivation is a
function, hence deterministic), the second import leaves the vault equal to
the first, and the vault holds exactly one entry for the derived identity. -/
theorem import_keypair_idempotent (fs : FromSecret) (km : KeyManager)
    (secret : String) (kp : Keypair) (hfs : fs secret = some kp)
    (hnd : (dictKeys km.keypair_store).Nodup) :
    KeyManager.import_keypair fs km secret =
      .ok (kp.public_key, km.store kp.public_key secret) ∧
    KeyManager.import_keypair fs (km.store kp.public_key secret) secret =
      .ok (kp.public_key, km.store kp.public_key secret) ∧
    countKey (km.store kp.public_key secret).keypair_store kp.public_key
      = 1 := by
  refine ⟨?_, ?_, ?_⟩
  · simp [KeyManager.import_keypair, hfs]
  · have h2 := dictSet_eq_of_get
      (dictSet km.keypair_store kp.public_key secret) kp.public_key secret
      (dictGet_dictSet_self km.keypair_store kp.public_key secret)
    simp [KeyManager.import_keypair, hfs, KeyManager.store, h2]
  · exact countKey_dictSet _ _ _ hnd

/-- C6 witness: importing the test credential twice into the empty vault. -/
theorem import_keypair_idempotent_witness :
    KeyManager.import_keypair fsTest (KeyManager.mk []) "SVALID" =
      .ok ("GVALID", (KeyManager.mk []).store "GVALID" "SVALID") ∧
    KeyManager.import_keypair fsTest
        ((KeyManager.mk []).store "GVALID" "SVALID") "SVALID" =
      .ok ("GVALID", (KeyManager.mk []).store "GVALID" "SVALID") ∧
    countKey ((KeyManager.mk []).store "GVALID" "SVALID").keypair_store
      "GVALID" = 1 :=
  import_keypair_idempotent fsTest ⟨[]⟩ "SVALID" ⟨"GVALID", "SVALID"⟩ rfl
    (by simp [dictKeys])

/-- C2 counterexample: the claim says every stored identity succeeds on get
and export and that the lookup is membership only.  In kmC2, "GA" is a
member of the vault (stored with the empty credential) yet both get and
export fail with the not-found error, and "GB" (stored with a malformed
credential) succeeds on export while get fails with the seed error, so the
lookup outcome of get also depends on credential validity. -/
theorem vault_get_export_counterexample :
    kmC2.has_account "GA" = true ∧
    kmC2.export_secret "GA" = .error (.valueError (exportNotFoundMsg "GA")) ∧
    kmC2.get_keypair fsTest "GA" =
      .error (.valueError (getNotFoundMsg "GA")) ∧
    kmC2.export_secret "GB" = .ok "bad" ∧
    kmC2.get_keypair fsTest "GB" = .error (.badSeed "bad") :=
  ⟨rfl, rfl, rfl, rfl, rfl⟩

/-- C2 amended: identities never stored fail with the not-found error on get
and export; identities whose most recent store wrote a non-empty credential
have export return exactly that credential (last-write-wins), while get
returns the keypair derived from it when derivation succeeds and raises the
seed error otherwise; the retrieval check is Python truthiness of the
stored value, so an empty stored credential is reported as not found. -/
theorem vault_get_export_amended (fs : FromSecret) (km : KeyManager)
    (account_id : String) :
    (dictGet km.keypair_store account_id = none →
      km.get_keypair fs account_id =
        .error (.valueError (getNotFoundMsg account_id)) ∧
      km.export_secret account_id =
        .error (.valueError (exportNotFoundMsg account_id))) ∧
    (∀ s, dictGet km.keypair_store account_id = some s → s ≠ "" →
      km.export_secret account_id = .ok s ∧
      (∀ kp, fs s = some kp → km.get_keypair fs account_id = .ok kp) ∧
      (fs s = none →
        km.get_keypair fs account_id = .error (.badSeed s))) ∧
    (∀ s, dictGet (km.store account_id s).keypair_store account_id
      = some s) := by
  refine ⟨?_, ?_, ?_⟩
  · intro h
    constructor <;> simp [KeyManager.get_keypair, KeyManager.export_secret, h]
  · intro s hs hne
    refine ⟨?_, ?_, ?_⟩
    · simp [KeyManager.export_secret, hs, hne]
    · intro kp hkp
      simp [KeyManager.get_keypair, hs, hne, hkp]
    · intro hkp
      simp [KeyManager.get_keypair, hs, hne, hkp]
  · intro s
    exact dictGet_dictSet_self _ _ _

/-- C2 amended witness: an absent identity fails on both paths, a stored
non-empty well-formed credential is exported verbatim and retrieved as the
derived keypair, and a fresh store is the value subsequently looked up. -/
theorem vault_get_export_amended_witness :
    ((KeyManager.mk []).get_keypair fsTest "GX" =
        .error (.valueError (getNotFoundMsg "GX")) ∧
      (KeyManager.mk []).export_secret "GX" =
        .error (.valueError (exportNotFoundMsg "GX"))) ∧
    kmW.export_secret "GA" = .ok "SVALID" ∧
    kmW.get_keypair fsTest "GA" = .ok ⟨"GVALID", "SVALID"⟩ ∧
    dictGet ((kmW.store "GA" "S2").keypair_store) "GA" = some "S2" :=
  ⟨(vault_get_export_amended fsTest ⟨[]⟩ "GX").1 rfl,
    ((vault_get_export_amended fsTest kmW "GA").2.1 "SVALID" rfl
      (by decide)).1,
    (((vault_get_export_amended fsTest kmW "GA").2.1 "SVALID" rfl
      (by decide)).2.1 _ rfl),
    (vault_get_export_amended fsTest kmW "GA").2.2 "S2"⟩

/-- C5 counterexample: the claim says export fails exactly when get fails.
In kmC5, "GB" was stored with a credential that derivation rejects: export
succeeds and returns it, while get fails with the seed error, so the
failure sets of the two operations differ. -/
theorem get_export_equivalence_counterexample :
    kmC5.export_secret "GB" = .ok "bad" ∧
    kmC5.get_keypair fsTest "GB" = .error (.badSeed "bad") :=
  ⟨rfl, rfl⟩

/-- C5 amended: export fails with its not-found error exactly when get
fails with its not-found error (the same truthiness check of the vault);
whenever export succeeds with a secret, get returns the keypair derived
from that same secret when derivation succeeds and raises the seed error
otherwise.  Export reads the vault only: the embedding returns no updated
state because the source only performs a dict lookup. -/
theorem get_export_equivalence_amended (fs : FromSecret) (km : KeyManager)
    (account_id : String) :
    (km.export_secret account_id =
        .error (.valueError (exportNotFoundMsg account_id)) ↔
      km.get_keypair fs account_id =
        .error (.valueError (getNotFoundMsg account_id))) ∧
    (∀ s, km.export_secret account_id = .ok s →
      (∀ kp, fs s = some kp → km.get_keypair fs account_id = .ok kp) ∧
      (fs s = none →
        km.get_keypair fs account_id = .error (.badSeed s))) := by
  cases hsec : dictGet km.keypair_store account_id with
  | none =>
      constructor
      · simp [KeyManager.export_secret, KeyManager.get_keypair, hsec]
      · intro s hs
        simp [KeyManager.export_secret, hsec] at hs
  | some s =>
      by_cases hne : s = ""
      · subst hne
        constructor
        · simp [KeyManager.export_secret, KeyManager.get_keypair, hsec]
        · intro s' hs'
          simp [KeyManager.export_secret, hsec] at hs'
      · constructor
        · constructor
          · intro h
            exact absurd h (by simp [KeyManager.export_secret, hsec, hne])
          · intro h
            exfalso
            cases hfs : fs s with
            | none => simp [KeyManager.get_keypair, hsec, hne, hfs] at h
            | some kp => simp [KeyManager.get_keypair, hsec, hne, hfs] at h
        · intro s' hs'
          have hss : s = s' := by
            simpa [KeyManager.export_secret, hsec, hne] using hs'
          subst hss
          constructor
          · intro kp hkp
            simp [KeyManager.get_keypair, hsec, hne, hkp]
          · intro hkp
            simp [KeyManager.get_keypair, hsec, hne, hkp]

/-- C5 amended witness: on the empty vault both not-found failures agree,
and on kmW a successful export is matched by get returning the keypair
derived from the exported secret. -/
theorem get_export_equivalence_amended_witness :
    ((KeyManager.mk []).export_secret "GX" =
        .error (.valueError (exportNotFoundMsg "GX")) ↔
      (KeyManager.mk []).get_keypair fsTest "GX" =
        .error (.valueError (getNotFoundMsg "GX"))) ∧
    kmW.get_keypair fsTest "GA" = .ok ⟨"GVALID", "SVALID"⟩ :=
  ⟨(get_export_equivalence_amended fsTest ⟨[]⟩ "GX").1,
    ((get_export_equivalence_amended fsTest kmW "GA").2 "SVALID" rfl).1
      _ rfl⟩

/-- C1: on the happy pipeline path (stored keypair, loadable account,
parsable offer id), whenever the offer-by-id lookup returns a record,
cancel_order builds and submits exactly one transaction whose single
operation is a manage-sell-offer with amount "0", the given offer id, and
the selling asset, buying asset and price exactly as recorded in the
lookup; and whenever the lookup finds no offer, cancel_order returns the
not-found error dict having built and submitted nothing. -/
theorem cancel_order_correct (env : HorizonEnv) (fs : FromSecret)
    (km : KeyManager) (account_id offer_id : String) :
    (∀ kp offer selling buying account oid,
      km.get_keypair fs account_id = .ok kp →
      env.lookupOffer offer_id = some offer →
      dict_to_asset offer.selling = .ok selling →
      dict_to_asset offer.buying = .ok buying →
      env.loadAccount account_id = some account →
      parsePyInt offer_id = some oid →
      ∃ tx, (cancel_order env fs km account_id offer_id).2.built = [tx] ∧
        (cancel_order env fs km account_id offer_id).2.submitted = [tx] ∧
        tx.ops =
          [Operation.manageSellOffer selling buying "0" offer.price oid]) ∧
    (∀ kp,
      km.get_keypair fs account_id = .ok kp →
      env.lookupOffer offer_id = none →
      cancel_order env fs km account_id offer_id =
        (.err (pyStr (.notFoundError offer_id)), ⟨[], []⟩)) := by
  constructor
  · intro kp offer selling buying account oid hkp hoffer hsell hbuy hacct hoid
    refine ⟨⟨account.account_id, account.sequence + 1,
      [Operation.manageSellOffer selling buying "0" offer.price oid],
      [kp.public_key]⟩, ?_⟩
    cases hsub : env.submit ⟨account.account_id, account.sequence + 1,
        [Operation.manageSellOffer selling buying "0" offer.price oid],
        [kp.public_key]⟩ with
    | response ok hh ll =>
        simp [cancel_order, hkp, hoffer, hsell, hbuy, hacct, hoid,
          Transaction.signWith, hsub]
    | raise e =>
        simp [cancel_order, hkp, hoffer, hsell, hbuy, hacct, hoid,
          Transaction.signWith, hsub]
  · intro kp hkp hoffer
    simp [cancel_order, hkp, hoffer]

/-- C1 witness: in the concrete environment, cancelling offer "42" builds
and submits the zero-amount replace-offer with the recorded assets and
price, and cancelling the unknown offer "7" fails with the not-found error
having built nothing. -/
theorem cancel_order_correct_witness :
    (∃ tx, (cancel_order envW fsTest kmW "GA" "42").2.built = [tx] ∧
      (cancel_order envW fsTest kmW "GA" "42").2.submitted = [tx] ∧
      tx.ops = [Operation.manageSellOffer (.alphanum "USDC" "GISSUER")
        .native "0" "0.5" 42]) ∧
    cancel_order envW fsTest kmW "GA" "7" =
      (.err (pyStr (.notFoundError "7")), ⟨[], []⟩) :=
  ⟨(cancel_order_correct envW fsTest kmW "GA" "42").1 ⟨"GVALID", "SVALID"⟩
      recW (.alphanum "USDC" "GISSUER") .native ⟨"GA", 7⟩ 42
      rfl rfl rfl rfl rfl rfl,
    (cancel_order_correct envW fsTest kmW "GA" "7").2 ⟨"GVALID", "SVALID"⟩
      rfl rfl⟩

/-- C4: evaluating the code at the failing input.  remove_trustline invoked
with a native asset reference (stored keypair, loadable account) resolves
the native asset without objection, builds a change-trust operation on the
native asset with limit "0", and submits it to the network, returning
whatever the network answers: there is no client-side InvalidOperation
failure and the network is reached, contradicting the claim. -/
theorem remove_trustline_native_reaches_network :
    (remove_trustline envW fsTest kmW "GA" assetNativeDict).2.submitted.map
        Transaction.ops = [[Operation.changeTrust .native (some "0")]] ∧
    (remove_trustline envW fsTest kmW "GA" assetNativeDict).1 =
      .ok true (some "h1") (some 5) "Trustline removed for asset" :=
  ⟨rfl, rfl⟩

/-- C8: the cited tool operations (create_account, submit_transaction,
cancel_order) return, for every input and every behaviour of the external
collaborators, a structured result dict that is either a success payload or
an error-detail string; every internal exception is converted by the
try/except boundary, so none propagates to the caller. -/
theorem tool_boundary_structured (kp : Keypair) (km : KeyManager)
    (fromXdr : String → Except PyExc Transaction) (env : HorizonEnv)
    (fs : FromSecret) (signed_xdr account_id offer_id : String) :
    ((∃ a m, (create_account kp km).1 = .ok a m) ∨
      (∃ e, (create_account kp km).1 = .err e)) ∧
    ((∃ s h l m, submit_transaction fromXdr env signed_xdr = .ok s h l m) ∨
      (∃ e, submit_transaction fromXdr env signed_xdr = .err e)) ∧
    ((∃ s h l m,
        (cancel_order env fs km account_id offer_id).1 = .ok s h l m) ∨
      (∃ e, (cancel_order env fs km account_id offer_id).1 = .err e)) := by
  refine ⟨Or.inl ⟨_, _, rfl⟩, ?_, ?_⟩
  · cases h : submit_transaction fromXdr env signed_xdr with
    | ok s hh l m => exact Or.inl ⟨s, hh, l, m, rfl⟩
    | err e => exact Or.inr ⟨e, rfl⟩
  · cases h : (cancel_order env fs km account_id offer_id).1 with
    | ok s hh l m => exact Or.inl ⟨s, hh, l, m, rfl⟩
    | err e => exact Or.inr ⟨e, rfl⟩

/-- C3: on the spec-modelled Market Executor, a market buy of 8 against the
ask book [(price 2, amount 5), (price 3, amount 5)] derives execution price
3 (worst price touched) with filled amount 8, and a market buy of 12
(exceeding the total depth 10) fills 10 with liquidity exhausted reported
as a successful partial fill, not an error. -/
theorem market_buy_walk_examples :
    marketBuyWalk [((2 : Rat), 5), (3, 5)] 8 = some ⟨3, 8, false⟩ ∧
    marketBuyWalk [((2 : Rat), 5), (3, 5)] 12 = some ⟨3, 10, true⟩ := by
  constructor <;> norm_num [marketBuyWalk, max_def]

end StellarMCP
